import Mathlib

/-!
Shallow embedding of `vectors.py` (repository AABENZ/CHAT): an ingestion
pipeline that loads a PDF, splits it into overlapping text chunks, embeds
each chunk, and upserts the batch into a named collection of a remote
vector store.  External collaborators (document loader, embedding model,
vector store transport) are modelled as an explicit environment of
functions; exceptions are modelled with `Except`; the vector store's
contents are modelled as explicit state threaded through the call; the
sequence of external calls made is recorded as a trace.
-/

namespace Vectors

/-- A loaded document: raw text content plus metadata, as produced by the
document loader (`UnstructuredPDFLoader.load`). -/
structure Document where
  content : List Char
  metadata : List (String × String)
deriving DecidableEq

/-- A text chunk: a substring of a document's content together with its
start offset in the document and the parent document's metadata. -/
structure Chunk where
  start : Nat
  content : List Char
  metadata : List (String × String)
deriving DecidableEq

/-- Modelled from the spec: the chunk splitter (the source delegates to
the external `RecursiveCharacterTextSplitter`, whose implementation is not
part of this repository).  Per the spec's ChunkSplitter contract, chunk
`i+1` begins `max_size - overlap` characters after chunk `i` begins, each
chunk holds the next `max_size` characters of the document, and chunks are
produced while their start offset lies inside the content; hence chunk `i`
starts at `i * (max_size - overlap)` and the number of chunks is the
length of the content divided by `max_size - overlap`, rounded up. -/
def splitDocument (max_size overlap : Nat) (d : Document) : List Chunk :=
  (List.range
      ((d.content.length + (max_size - overlap) - 1) / (max_size - overlap))).map
    (fun i =>
      { start := i * (max_size - overlap)
        content := (d.content.drop (i * (max_size - overlap))).take max_size
        metadata := d.metadata })

/-- Modelled from the spec: `split_documents` applies the splitter to each
document in order and concatenates the resulting chunk sequences. -/
def split_documents (max_size overlap : Nat) (docs : List Document) : List Chunk :=
  docs.flatMap (splitDocument max_size overlap)

/-- Reassemble a chunk sequence: the first chunk followed by every later
chunk with its first `overlap` characters (the part shared with its
predecessor) removed.  This is the "concatenation accounting for overlap"
of the spec's reconstruction property. -/
def reconstruct (overlap : Nat) : List (List Char) → List Char
  | [] => []
  | c :: rest => c ++ (rest.map (List.drop overlap)).flatten

/-- Python exceptions appearing in `vectors.py` and in the error taxonomy
of its collaborators.  `connectionError` models
`ConnectionError(f"Failed to connect to Qdrant Cloud: {e}")`: the message
text together with the wrapped original exception `e` (which the f-string
interpolates into the message, preserving the cause). -/
inductive PyError where
  | fileNotFoundError (msg : String)
  | valueError (msg : String)
  | connectionError (msg : String) (cause : PyError)
  | embeddingError (msg : String)
  | loadError (msg : String)
  | storeError (msg : String)
  | configurationError (msg : String)
deriving DecidableEq

/-- The `HuggingFaceBgeEmbeddings` handle built in `__init__` from
`model_name`, `model_kwargs={"device": device}` and `encode_kwargs`. -/
structure BgeEmbeddings where
  model_name : String
  device : String
  encode_kwargs : List (String × Bool)
deriving DecidableEq

/-- The pipeline object (`EmbeddingsManager`): the configuration fields
assigned in `__init__` plus the embeddings handle. -/
structure EmbeddingsManager where
  model_name : String
  device : String
  encode_kwargs : List (String × Bool)
  qdrant_url : Option String
  qdrant_api_key : Option String
  collection_name : Option String
  embeddings : BgeEmbeddings
deriving DecidableEq

/-- Default value of the `model_name` parameter of
`EmbeddingsManager.__init__`. -/
def default_model_name : String := "BAAI/bge-small-en"

/-- Default value of the `device` parameter of
`EmbeddingsManager.__init__`. -/
def default_device : String := "cpu"

/-- Default value of the `encode_kwargs` parameter of
`EmbeddingsManager.__init__`. -/
def default_encode_kwargs : List (String × Bool) := [("normalize_embeddings", true)]

/-- Name of the first environment variable read at module level. -/
def qdrant_url_var : String := "QDRANT_URL"

/-- Name of the second environment variable read at module level. -/
def qdrant_api_key_var : String := "QDRANT_API_KEY"

/-- Name of the third environment variable read at module level. -/
def collection_name_var : String := "COLLECTION_NAME"

/-- Module-level configuration of `vectors.py`: the three values read from
the environment with `os.getenv` (each absent variable yields `None`). -/
def getenvConfig (env_vars : String → Option String) :
    Option String × Option String × Option String :=
  (env_vars qdrant_url_var, env_vars qdrant_api_key_var, env_vars collection_name_var)

/-- `EmbeddingsManager.__init__`, with an explicit error channel to record
whether construction can raise: the body only assigns the six
configuration fields and builds the embeddings handle, so it always
returns `.ok` — no value is validated and no exception is raised. -/
def EmbeddingsManager.init (model_name device : String)
    (encode_kwargs : List (String × Bool))
    (qdrant_url qdrant_api_key collection_name : Option String) :
    Except PyError EmbeddingsManager :=
  .ok
    { model_name := model_name
      device := device
      encode_kwargs := encode_kwargs
      qdrant_url := qdrant_url
      qdrant_api_key := qdrant_api_key
      collection_name := collection_name
      embeddings :=
        { model_name := model_name
          device := device
          encode_kwargs := encode_kwargs } }

/-- Whether a computation with an error channel raised a
`ConfigurationError`. -/
def raisesConfigurationError {α : Type} : Except PyError α → Bool
  | .error (.configurationError _) => true
  | _ => false

/-- One external call made during an ingestion run, in order: the loader
invocation, the splitter invocation, one embedding-provider invocation per
chunk, and the store upsert (with its collection, batch size and
`force_recreate` flag). -/
inductive Stage where
  | load (path : String)
  | split
  | embed (c : Chunk)
  | upsert (collection : Option String) (batchSize : Nat) (recreate : Bool)
deriving DecidableEq

/-- The contents of the remote vector store: each collection name maps to
the list of (chunk, vector) points it holds, `none` when the collection
does not exist. -/
structure StoreState where
  collections : Option String → Option (List (Chunk × List Int))

/-- Modelled from the spec: the store-side effect of
`VectorStoreClient.upsert(collection, batch, recreate)` (the source
delegates to the external Qdrant client, whose implementation is not part
of this repository).  With `recreate = true` the collection is recreated
and ends up holding exactly the batch; otherwise the batch is appended. -/
def StoreState.applyUpsert (st : StoreState) (name : Option String)
    (batch : List (Chunk × List Int)) (recreate : Bool) : StoreState :=
  { collections := fun n =>
      if n = name then
        some (if recreate then batch else ((st.collections name).getD []) ++ batch)
      else st.collections n }

/-- The external collaborators of one ingestion run: the filesystem check
(`os.path.exists`), the document loader (`UnstructuredPDFLoader.load`),
the embedding provider (applied to one chunk, given the configured
embeddings handle), and the store transport (whether the upsert request —
carrying url, api key, collection name, batch and `force_recreate` —
succeeds or raises). -/
structure IngestEnv where
  path_exists : String → Bool
  load : String → Except PyError (List Document)
  embed : BgeEmbeddings → Chunk → Except PyError (List Int)
  upsert_ok : Option String → Option String → Option String →
    List (Chunk × List Int) → Bool → Except PyError Unit

/-- Embed every chunk in order with the configured provider, as
`Qdrant.from_documents` does internally, recording one `Stage.embed` event
per provider invocation and stopping at the first failure. -/
def embedAll (env : IngestEnv) (emb : BgeEmbeddings) :
    List Chunk → Except PyError (List (Chunk × List Int)) × List Stage
  | [] => (.ok [], [])
  | c :: cs =>
    match env.embed emb c with
    | .error e => (.error e, [.embed c])
    | .ok v =>
      match embedAll env emb cs with
      | (.error e, tr) => (.error e, .embed c :: tr)
      | (.ok pairs, tr) => (.ok ((c, v) :: pairs), .embed c :: tr)

/-- Everything one call of `create_embeddings` produces: the returned
value or raised exception, the resulting store contents, the object the
method was called on as it stands after the call, and the trace of
external calls made. -/
structure IngestOutcome where
  result : Except PyError String
  store : StoreState
  self : EmbeddingsManager
  trace : List Stage

/-- The fixed string returned by `create_embeddings` on success. -/
def successMessage : String := "✅ Vector DB Successfully Created and Stored in Qdrant Cloud!"

/-- `EmbeddingsManager.create_embeddings(pdf_path)`, line by line: the
existence check; `loader.load()` (loader exceptions propagate unwrapped);
the empty-documents check; the splitter with `chunk_size=1000,
chunk_overlap=250`; the empty-chunks check; then
`Qdrant.from_documents(splits, self.embeddings, url, api_key,
collection_name, force_recreate=True)` inside `try/except Exception`,
which embeds every chunk and issues the upsert — any exception raised
inside the `try` block (embedding failures included) is re-raised as
`ConnectionError(f"Failed to connect to Qdrant Cloud: {e}")`. -/
def EmbeddingsManager.create_embeddings (mgr : EmbeddingsManager)
    (env : IngestEnv) (store : StoreState) (pdf_path : String) : IngestOutcome :=
  if !(env.path_exists pdf_path) then
    { result := .error (.fileNotFoundError ("The file " ++ pdf_path ++ " does not exist."))
      store := store, self := mgr, trace := [] }
  else
    match env.load pdf_path with
    | .error e => { result := .error e, store := store, self := mgr, trace := [.load pdf_path] }
    | .ok docs =>
      if docs.isEmpty then
        { result := .error (.valueError ("No documents were loaded from the PDF."))
          store := store, self := mgr, trace := [.load pdf_path] }
      else
        if (split_documents 1000 250 docs).isEmpty then
          { result := .error (.valueError ("No text chunks were created from the documents."))
            store := store, self := mgr, trace := [.load pdf_path, .split] }
        else
          match embedAll env mgr.embeddings (split_documents 1000 250 docs) with
          | (.error e, etr) =>
            { result := .error (.connectionError ("Failed to connect to Qdrant Cloud: ") e)
              store := store, self := mgr
              trace := [.load pdf_path, .split] ++ etr }
          | (.ok pairs, etr) =>
            match env.upsert_ok mgr.qdrant_url mgr.qdrant_api_key mgr.collection_name pairs true with
            | .error e =>
              { result := .error (.connectionError ("Failed to connect to Qdrant Cloud: ") e)
                store := store, self := mgr
                trace := [.load pdf_path, .split] ++ etr
                  ++ [.upsert mgr.collection_name pairs.length true] }
            | .ok _ =>
              { result := .ok successMessage
                store := store.applyUpsert mgr.collection_name pairs true
                self := mgr
                trace := [.load pdf_path, .split] ++ etr
                  ++ [.upsert mgr.collection_name pairs.length true] }

/-! Concrete collaborators and inputs used by the witnesses. -/

/-- A sample path argument. -/
def samplePath : String := "doc.pdf"

/-- A path to a file that does not exist. -/
def ghostPath : String := "ghost.pdf"

/-- A sample loaded document (18 characters, so it fits in one chunk). -/
def sampleDoc : Document := ⟨"hello vector store".toList, [("source", "doc.pdf")]⟩

/-- The single chunk the splitter produces from `sampleDoc`. -/
def sampleChunk : Chunk := ⟨0, "hello vector store".toList, [("source", "doc.pdf")]⟩

/-- A fully configured pipeline object. -/
def sampleMgr : EmbeddingsManager :=
  ⟨default_model_name, default_device, default_encode_kwargs,
    some "https://qdrant.example", some "secret-key", some "vector_db",
    ⟨default_model_name, default_device, default_encode_kwargs⟩⟩

/-- A store that already holds stale points in every collection, to
exhibit the destructive replace. -/
def priorStore : StoreState :=
  { collections := fun _ => some [(⟨0, "stale".toList, []⟩, [9])] }

/-- An environment in which every stage succeeds. -/
def okEnv : IngestEnv :=
  { path_exists := fun _ => true
    load := fun _ => .ok [sampleDoc]
    embed := fun _ _ => .ok [1, 2]
    upsert_ok := fun _ _ _ _ _ => .ok () }

/-- An environment in which the source path does not exist. -/
def missingEnv : IngestEnv :=
  { path_exists := fun _ => false
    load := fun _ => .ok [sampleDoc]
    embed := fun _ _ => .ok [1, 2]
    upsert_ok := fun _ _ _ _ _ => .ok () }

/-- An environment in which the loader extracts no documents. -/
def emptyLoadEnv : IngestEnv :=
  { path_exists := fun _ => true
    load := fun _ => .ok []
    embed := fun _ _ => .ok [1, 2]
    upsert_ok := fun _ _ _ _ _ => .ok () }

/-- A document with no splittable text. -/
def emptyDoc : Document := ⟨[], [("source", "doc.pdf")]⟩

/-- An environment in which the loader yields one document with empty
content, so splitting produces no chunks. -/
def emptyContentEnv : IngestEnv :=
  { path_exists := fun _ => true
    load := fun _ => .ok [emptyDoc]
    embed := fun _ _ => .ok [1, 2]
    upsert_ok := fun _ _ _ _ _ => .ok () }

/-- An environment in which the store upsert raises. -/
def downStoreEnv : IngestEnv :=
  { path_exists := fun _ => true
    load := fun _ => .ok [sampleDoc]
    embed := fun _ _ => .ok [1, 2]
    upsert_ok := fun _ _ _ _ _ => .error (.storeError ("503 Service Unavailable")) }

/-- An environment in which the embedding provider raises. -/
def brokenEmbedEnv : IngestEnv :=
  { path_exists := fun _ => true
    load := fun _ => .ok [sampleDoc]
    embed := fun _ _ => .error (.embeddingError ("model crashed"))
    upsert_ok := fun _ _ _ _ _ => .ok () }

/-- A non-empty document list whose single document has 2400 characters. -/
def wDocs : List Document := [⟨List.replicate 2400 default, [("page", "1")]⟩]

/-! Helper lemmas about the splitter. -/

/-- Rounding the length up to the next multiple of the stride is at least
the length. -/
theorem le_ceil_mul (st len : Nat) (hst : 0 < st) : len ≤ ((len + st - 1) / st) * st := by
  have h1 := Nat.div_add_mod (len + st - 1) st
  have h2 : (len + st - 1) % st < st := Nat.mod_lt _ hst
  have h3 : st * ((len + st - 1) / st) = ((len + st - 1) / st) * st := Nat.mul_comm _ _
  omega

/-- Dropping the overlapping head of each window starting at `off` and
concatenating yields the suffix of the text from `off + ov` on, provided
the windows reach the end of the text. -/
theorem flatten_window (ms ov : Nat) (s : List Char) :
    ∀ n off, s.length ≤ n * (ms - ov) + off →
      ((List.range n).map (fun i => ((s.drop (i * (ms - ov) + off)).take ms).drop ov)).flatten
        = s.drop (off + ov) := by
  intro n
  induction n with
  | zero =>
    intro off h
    simp only [List.range_zero, List.map_nil, List.flatten_nil]
    exact (List.drop_eq_nil_of_le (by omega)).symm
  | succ n ih =>
    intro off h
    rw [List.range_succ_eq_map, List.map_cons, List.map_map, List.flatten_cons]
    have htail : (List.range n).map
          ((fun i => ((s.drop (i * (ms - ov) + off)).take ms).drop ov) ∘ Nat.succ)
        = (List.range n).map
          (fun i => ((s.drop (i * (ms - ov) + ((ms - ov) + off))).take ms).drop ov) := by
      apply List.map_congr_left
      intro i _
      have hmul : Nat.succ i * (ms - ov) + off = i * (ms - ov) + ((ms - ov) + off) := by
        rw [Nat.succ_mul]; omega
      simp [Function.comp, hmul]
    rw [htail, ih ((ms - ov) + off) (by rw [Nat.succ_mul] at h; omega)]
    have e1 : ((s.drop (0 * (ms - ov) + off)).take ms).drop ov
        = ((s.drop off).drop ov).take (ms - ov) := by
      rw [Nat.zero_mul, Nat.zero_add, List.drop_take]
    have e2 : (s.drop off).drop ov = s.drop (off + ov) := List.drop_drop _ _ _
    have e3 : s.drop (ms - ov + off + ov) = (s.drop (off + ov)).drop (ms - ov) := by
      rw [List.drop_drop]; congr 1; omega
    rw [e1, e2, e3]
    exact List.take_append_drop _ _

/-- Every chunk the splitter produces from a document has content of
length at most `max_size`. -/
theorem splitDocument_content_le (ms ov : Nat) (d : Document) :
    ∀ c ∈ splitDocument ms ov d, c.content.length ≤ ms := by
  intro c hc
  simp only [splitDocument, List.mem_map, List.mem_range] at hc
  obtain ⟨i, _, rfl⟩ := hc
  exact List.length_take_le _ _

/-- The `i`-th chunk the splitter produces starts at `i` strides into the
document. -/
theorem splitDocument_get_start (ms ov : Nat) (d : Document) (i : Nat)
    (h : i < (splitDocument ms ov d).length) :
    ((splitDocument ms ov d).get ⟨i, h⟩).start = i * (ms - ov) := by
  simp [splitDocument, List.get_eq_getElem]

/-- Overlap-aware concatenation of the chunks of a document rebuilds the
document's content exactly. -/
theorem reconstruct_splitDocument (ms ov : Nat) (hov : ov < ms) (d : Document) :
    reconstruct ov ((splitDocument ms ov d).map Chunk.content) = d.content := by
  have hst : 0 < ms - ov := by omega
  rcases hn : (d.content.length + (ms - ov) - 1) / (ms - ov) with _ | m
  · have hlen : d.content.length = 0 := by
      by_contra hne
      have : 0 < (d.content.length + (ms - ov) - 1) / (ms - ov) :=
        Nat.div_pos (by omega) hst
      omega
    have hcontent : d.content = [] := List.length_eq_zero.mp hlen
    have h0 : (ms - ov - 1) / (ms - ov) = 0 := Nat.div_eq_of_lt (by omega)
    simp [splitDocument, hcontent, h0, reconstruct]
  · have hsd : splitDocument ms ov d
        = (List.range (m + 1)).map (fun i =>
            { start := i * (ms - ov)
              content := (d.content.drop (i * (ms - ov))).take ms
              metadata := d.metadata }) := by
      simp only [splitDocument, hn]
    have hside : d.content.length ≤ m * (ms - ov) + (ms - ov) := by
      have hm := le_ceil_mul (ms - ov) d.content.length hst
      rw [hn, Nat.succ_mul] at hm
      exact hm
    rw [hsd, List.map_map, List.range_succ_eq_map, List.map_cons, List.map_map]
    simp only [reconstruct, Function.comp_def, List.map_map]
    have htail : (List.range m).map
          (fun i => List.drop ov ((d.content.drop (Nat.succ i * (ms - ov))).take ms))
        = (List.range m).map
          (fun i => ((d.content.drop (i * (ms - ov) + (ms - ov))).take ms).drop ov) := by
      apply List.map_congr_left
      intro i _
      congr 2
      rw [Nat.succ_mul]
    rw [htail, flatten_window ms ov d.content m (ms - ov) hside]
    rw [Nat.zero_mul, List.drop_zero, show ms - ov + ov = ms by omega]
    exact List.take_append_drop _ _

/-- On a 2400-character document with `max_size = 1000`, `overlap = 250`,
the chunk start offsets are 0, 750, 1500, 2250. -/
theorem splitDocument_2400_starts (d : Document) (h : d.content.length = 2400) :
    (splitDocument 1000 250 d).map Chunk.start = [0, 750, 1500, 2250] := by
  simp only [splitDocument, List.map_map, Function.comp_def, h]
  norm_num
  decide

/-- On a 2400-character document with `max_size = 1000`, `overlap = 250`,
the chunk content lengths are 1000, 1000, 900, 150 (the third window runs
from 1500 to the end of the document at 2400). -/
theorem splitDocument_2400_lengths (d : Document) (h : d.content.length = 2400) :
    (splitDocument 1000 250 d).map (fun c => c.content.length) = [1000, 1000, 900, 150] := by
  simp only [splitDocument, List.map_map, Function.comp_def, List.length_take,
    List.length_drop, h]
  norm_num
  decide

/-! The claims. -/

/-- Claim C1: on a successful call of `create_embeddings`, the named
collection of the vector store ends up holding exactly the (chunk,
vector) pairs embedded during that call — whatever the collection held
before is discarded, because the upsert is issued with
`force_recreate = true` (a destructive full replace, not an append); all
other collections are untouched. -/
theorem C1_success_replaces_collection (env : IngestEnv) (mgr : EmbeddingsManager)
    (store : StoreState) (path : String) (msg : String)
    (h : (mgr.create_embeddings env store path).result = .ok msg) :
    ∃ docs pairs etr,
      env.load path = .ok docs ∧
      embedAll env mgr.embeddings (split_documents 1000 250 docs) = (.ok pairs, etr) ∧
      (mgr.create_embeddings env store path).store.collections mgr.collection_name
        = some pairs ∧
      (∀ n, n ≠ mgr.collection_name →
        (mgr.create_embeddings env store path).store.collections n = store.collections n) ∧
      (mgr.create_embeddings env store path).trace
        = [Stage.load path, Stage.split] ++ etr
          ++ [Stage.upsert mgr.collection_name pairs.length true] := by
  cases hex : env.path_exists path with
  | false => simp [EmbeddingsManager.create_embeddings, hex] at h
  | true =>
    cases hload : env.load path with
    | error e => simp [EmbeddingsManager.create_embeddings, hex, hload] at h
    | ok docs =>
      cases hde : docs.isEmpty with
      | true => simp [EmbeddingsManager.create_embeddings, hex, hload, hde] at h
      | false =>
        cases hse : (split_documents 1000 250 docs).isEmpty with
        | true => simp [EmbeddingsManager.create_embeddings, hex, hload, hde, hse] at h
        | false =>
          rcases hemb : embedAll env mgr.embeddings (split_documents 1000 250 docs)
            with ⟨r, etr⟩
          cases r with
          | error e =>
            simp [EmbeddingsManager.create_embeddings, hex, hload, hde, hse, hemb] at h
          | ok pairs =>
            cases hup : env.upsert_ok mgr.qdrant_url mgr.qdrant_api_key
                mgr.collection_name pairs true with
            | error e =>
              simp [EmbeddingsManager.create_embeddings, hex, hload, hde, hse, hemb, hup] at h
            | ok u =>
              refine ⟨docs, pairs, etr, rfl, ?_, ?_, ?_, ?_⟩
              · exact hemb
              · simp [EmbeddingsManager.create_embeddings, hex, hload, hde, hse, hemb, hup,
                  StoreState.applyUpsert]
              · intro n hn
                simp [EmbeddingsManager.create_embeddings, hex, hload, hde, hse, hemb, hup,
                  StoreState.applyUpsert, hn]
              · simp [EmbeddingsManager.create_embeddings, hex, hload, hde, hse, hemb, hup]

/-- Witness for C1: a run in which every stage succeeds, starting from a
store whose collections already hold stale points. -/
theorem C1_witness :
    (sampleMgr.create_embeddings okEnv priorStore samplePath).result = .ok successMessage ∧
    (∃ docs pairs etr,
      okEnv.load samplePath = .ok docs ∧
      embedAll okEnv sampleMgr.embeddings (split_documents 1000 250 docs) = (.ok pairs, etr) ∧
      (sampleMgr.create_embeddings okEnv priorStore samplePath).store.collections
          sampleMgr.collection_name = some pairs ∧
      (∀ n, n ≠ sampleMgr.collection_name →
        (sampleMgr.create_embeddings okEnv priorStore samplePath).store.collections n
          = priorStore.collections n) ∧
      (sampleMgr.create_embeddings okEnv priorStore samplePath).trace
        = [Stage.load samplePath, Stage.split] ++ etr
          ++ [Stage.upsert sampleMgr.collection_name pairs.length true]) :=
  ⟨rfl, C1_success_replaces_collection okEnv sampleMgr priorStore samplePath successMessage rfl⟩

/-- Claim C2: for every non-empty document list, the splitter invoked with
`max_size = 1000` and `overlap = 250` produces chunks of length at most
1000, whose overlap-aware concatenation rebuilds each document's content
exactly, and where chunk `i+1` starts 750 characters after chunk `i`; a
2400-character document yields exactly the start offsets 0, 750, 1500,
2250, with the final chunk 150 characters long. -/
theorem C2_chunk_splitter_contract (docs : List Document) (_hne : docs ≠ []) :
    (∀ c ∈ split_documents 1000 250 docs, c.content.length ≤ 1000) ∧
    (∀ d ∈ docs, reconstruct 250 ((splitDocument 1000 250 d).map Chunk.content) = d.content) ∧
    (∀ d ∈ docs, ∀ i : Nat, ∀ h : i + 1 < (splitDocument 1000 250 d).length,
      ((splitDocument 1000 250 d).get ⟨i + 1, h⟩).start
        = ((splitDocument 1000 250 d).get ⟨i, Nat.lt_of_succ_lt h⟩).start + 750) ∧
    (∀ d ∈ docs, d.content.length = 2400 →
      (splitDocument 1000 250 d).map Chunk.start = [0, 750, 1500, 2250] ∧
      ((splitDocument 1000 250 d).map (fun c => c.content.length)).getLast? = some 150) := by
  refine ⟨?_, ?_, ?_, ?_⟩
  · intro c hc
    simp only [split_documents, List.mem_flatMap] at hc
    obtain ⟨d, _, hcd⟩ := hc
    exact splitDocument_content_le 1000 250 d c hcd
  · intro d _
    exact reconstruct_splitDocument 1000 250 (by norm_num) d
  · intro d _ i h
    rw [splitDocument_get_start, splitDocument_get_start]
    omega
  · intro d _ h2400
    exact ⟨splitDocument_2400_starts d h2400,
      by rw [splitDocument_2400_lengths d h2400]; rfl⟩

/-- Witness for C2: the splitter contract instantiated at a one-element
document list whose document has 2400 characters. -/
theorem C2_witness :
    wDocs ≠ [] ∧
    ((∀ c ∈ split_documents 1000 250 wDocs, c.content.length ≤ 1000) ∧
     (∀ d ∈ wDocs, reconstruct 250 ((splitDocument 1000 250 d).map Chunk.content) = d.content) ∧
     (∀ d ∈ wDocs, ∀ i : Nat, ∀ h : i + 1 < (splitDocument 1000 250 d).length,
       ((splitDocument 1000 250 d).get ⟨i + 1, h⟩).start
         = ((splitDocument 1000 250 d).get ⟨i, Nat.lt_of_succ_lt h⟩).start + 750) ∧
     (∀ d ∈ wDocs, d.content.length = 2400 →
       (splitDocument 1000 250 d).map Chunk.start = [0, 750, 1500, 2250] ∧
       ((splitDocument 1000 250 d).map (fun c => c.content.length)).getLast? = some 150)) :=
  ⟨by decide, C2_chunk_splitter_contract wDocs (by decide)⟩

/-- Claim C3: when the source path does not exist, `create_embeddings`
fails with `FileNotFoundError` (`SourceNotFound`), makes no external call
at all (the trace is empty: neither loader, nor embedding provider, nor
store is invoked), and leaves the store untouched — the existence
precondition is checked first and short-circuits every later stage. -/
theorem C3_missing_source_short_circuits (env : IngestEnv) (mgr : EmbeddingsManager)
    (store : StoreState) (path : String)
    (h : env.path_exists path = false) :
    (mgr.create_embeddings env store path).result
        = .error (.fileNotFoundError ("The file " ++ path ++ " does not exist.")) ∧
    (mgr.create_embeddings env store path).trace = [] ∧
    (mgr.create_embeddings env store path).store = store := by
  simp [EmbeddingsManager.create_embeddings, h]

/-- Witness for C3: a nonexistent path in an environment whose loader,
provider and store would all succeed if reached. -/
theorem C3_witness :
    missingEnv.path_exists ghostPath = false ∧
    ((sampleMgr.create_embeddings missingEnv priorStore ghostPath).result
        = .error (.fileNotFoundError ("The file " ++ ghostPath ++ " does not exist.")) ∧
     (sampleMgr.create_embeddings missingEnv priorStore ghostPath).trace = [] ∧
     (sampleMgr.create_embeddings missingEnv priorStore ghostPath).store = priorStore) :=
  ⟨rfl, C3_missing_source_short_circuits missingEnv sampleMgr priorStore ghostPath rfl⟩

/-- Claim C4: when the loader yields an empty document sequence,
`create_embeddings` fails with `ValueError` (`EmptySource`); the trace
shows only the loader call — no splitting, embedding or upserting
happens — and the store is untouched. -/
theorem C4_empty_source_error (env : IngestEnv) (mgr : EmbeddingsManager)
    (store : StoreState) (path : String)
    (h1 : env.path_exists path = true) (h2 : env.load path = .ok []) :
    (mgr.create_embeddings env store path).result
        = .error (.valueError ("No documents were loaded from the PDF.")) ∧
    (mgr.create_embeddings env store path).trace = [.load path] ∧
    (mgr.create_embeddings env store path).store = store := by
  simp [EmbeddingsManager.create_embeddings, h1, h2]

/-- Witness for C4: an existing path whose loader extracts nothing. -/
theorem C4_witness :
    emptyLoadEnv.path_exists samplePath = true ∧
    emptyLoadEnv.load samplePath = .ok [] ∧
    ((sampleMgr.create_embeddings emptyLoadEnv priorStore samplePath).result
        = .error (.valueError ("No documents were loaded from the PDF.")) ∧
     (sampleMgr.create_embeddings emptyLoadEnv priorStore samplePath).trace
        = [.load samplePath] ∧
     (sampleMgr.create_embeddings emptyLoadEnv priorStore samplePath).store = priorStore) :=
  ⟨rfl, rfl, C4_empty_source_error emptyLoadEnv sampleMgr priorStore samplePath rfl rfl⟩

/-- Claim C5: when documents are loaded but the splitter yields no chunks,
`create_embeddings` fails with `ValueError` (`EmptyContent`); the trace
shows only the loader call and the splitter call — no embedding or
upserting happens — and the store is untouched. -/
theorem C5_empty_content_error (env : IngestEnv) (mgr : EmbeddingsManager)
    (store : StoreState) (path : String) (docs : List Document)
    (h1 : env.path_exists path = true) (h2 : env.load path = .ok docs)
    (h3 : docs ≠ []) (h4 : split_documents 1000 250 docs = []) :
    (mgr.create_embeddings env store path).result
        = .error (.valueError ("No text chunks were created from the documents.")) ∧
    (mgr.create_embeddings env store path).trace = [.load path, .split] ∧
    (mgr.create_embeddings env store path).store = store := by
  simp [EmbeddingsManager.create_embeddings, h1, h2, h3, h4, List.isEmpty_iff]

/-- Witness for C5: a document with empty content loads fine but splits
into zero chunks. -/
theorem C5_witness :
    emptyContentEnv.path_exists samplePath = true ∧
    emptyContentEnv.load samplePath = .ok [emptyDoc] ∧
    [emptyDoc] ≠ [] ∧
    split_documents 1000 250 [emptyDoc] = [] ∧
    ((sampleMgr.create_embeddings emptyContentEnv priorStore samplePath).result
        = .error (.valueError ("No text chunks were created from the documents.")) ∧
     (sampleMgr.create_embeddings emptyContentEnv priorStore samplePath).trace
        = [.load samplePath, .split] ∧
     (sampleMgr.create_embeddings emptyContentEnv priorStore samplePath).store = priorStore) :=
  ⟨rfl, rfl, by decide, rfl,
    C5_empty_content_error emptyContentEnv sampleMgr priorStore samplePath [emptyDoc]
      rfl rfl (by decide) rfl⟩

/-- Claim C6: every exception raised by the store upsert step is caught by
the `try/except` around `Qdrant.from_documents` and re-raised as
`ConnectionError` (`StoreUnavailable`) with the original exception
attached as cause; the modelled store contents are unchanged. -/
theorem C6_store_failure_wrapped (env : IngestEnv) (mgr : EmbeddingsManager)
    (store : StoreState) (path : String) (docs : List Document)
    (pairs : List (Chunk × List Int)) (etr : List Stage) (e : PyError)
    (h1 : env.path_exists path = true) (h2 : env.load path = .ok docs) (h3 : docs ≠ [])
    (h4 : split_documents 1000 250 docs ≠ [])
    (h5 : embedAll env mgr.embeddings (split_documents 1000 250 docs) = (.ok pairs, etr))
    (h6 : env.upsert_ok mgr.qdrant_url mgr.qdrant_api_key mgr.collection_name pairs true
        = .error e) :
    (mgr.create_embeddings env store path).result
        = .error (.connectionError ("Failed to connect to Qdrant Cloud: ") e) ∧
    (mgr.create_embeddings env store path).store = store := by
  simp [EmbeddingsManager.create_embeddings, h1, h2, h3, h4, h5, h6, List.isEmpty_iff]

/-- Witness for C6: the store transport raises a server-side error, which
surfaces as `ConnectionError` wrapping it. -/
theorem C6_witness :
    downStoreEnv.path_exists samplePath = true ∧
    downStoreEnv.load samplePath = .ok [sampleDoc] ∧
    [sampleDoc] ≠ [] ∧
    split_documents 1000 250 [sampleDoc] ≠ [] ∧
    embedAll downStoreEnv sampleMgr.embeddings (split_documents 1000 250 [sampleDoc])
        = (.ok [(sampleChunk, [1, 2])], [.embed sampleChunk]) ∧
    downStoreEnv.upsert_ok sampleMgr.qdrant_url sampleMgr.qdrant_api_key
        sampleMgr.collection_name [(sampleChunk, [1, 2])] true
        = .error (.storeError ("503 Service Unavailable")) ∧
    ((sampleMgr.create_embeddings downStoreEnv priorStore samplePath).result
        = .error (.connectionError ("Failed to connect to Qdrant Cloud: ")
            (.storeError ("503 Service Unavailable"))) ∧
     (sampleMgr.create_embeddings downStoreEnv priorStore samplePath).store = priorStore) :=
  ⟨rfl, rfl, by decide, by decide, rfl, rfl,
    C6_store_failure_wrapped downStoreEnv sampleMgr priorStore samplePath [sampleDoc]
      [(sampleChunk, [1, 2])] [.embed sampleChunk] (.storeError ("503 Service Unavailable"))
      rfl rfl (by decide) (by decide) rfl rfl⟩

/-- Counterexample to claim C7 as stated: with an embedding provider that
raises `EmbeddingError`, `create_embeddings` does NOT propagate the
`EmbeddingError` — the failure happens inside `Qdrant.from_documents`,
i.e. inside the `try` block, so the broad `except Exception` re-raises it
as `ConnectionError` with the embedding failure as cause. -/
theorem C7_counterexample :
    (sampleMgr.create_embeddings brokenEmbedEnv priorStore samplePath).result
        = .error (.connectionError ("Failed to connect to Qdrant Cloud: ")
            (.embeddingError ("model crashed"))) ∧
    ¬ (sampleMgr.create_embeddings brokenEmbedEnv priorStore samplePath).result
        = .error (.embeddingError ("model crashed")) := by
  constructor
  · rfl
  · intro hcontra
    rw [show (sampleMgr.create_embeddings brokenEmbedEnv priorStore samplePath).result
        = Except.error (PyError.connectionError ("Failed to connect to Qdrant Cloud: ")
            (PyError.embeddingError ("model crashed"))) from rfl] at hcontra
    simp at hcontra

/-- Claim C7 as amended: when the embedding provider fails during ingest,
the failure is caught by the same broad handler as store failures and
re-signaled as `ConnectionError` (`StoreUnavailable`) with the original
embedding error attached as cause — not propagated as `EmbeddingError`;
the store is untouched and no upsert call appears in the trace. -/
theorem C7_embedding_failure_wrapped (env : IngestEnv) (mgr : EmbeddingsManager)
    (store : StoreState) (path : String) (docs : List Document)
    (etr : List Stage) (e : PyError)
    (h1 : env.path_exists path = true) (h2 : env.load path = .ok docs) (h3 : docs ≠ [])
    (h4 : split_documents 1000 250 docs ≠ [])
    (h5 : embedAll env mgr.embeddings (split_documents 1000 250 docs) = (.error e, etr)) :
    (mgr.create_embeddings env store path).result
        = .error (.connectionError ("Failed to connect to Qdrant Cloud: ") e) ∧
    (mgr.create_embeddings env store path).store = store ∧
    (mgr.create_embeddings env store path).trace = [.load path, .split] ++ etr := by
  simp [EmbeddingsManager.create_embeddings, h1, h2, h3, h4, h5, List.isEmpty_iff]

/-- Witness for the amended C7: the provider raises while embedding the
only chunk. -/
theorem C7_witness :
    brokenEmbedEnv.path_exists samplePath = true ∧
    brokenEmbedEnv.load samplePath = .ok [sampleDoc] ∧
    [sampleDoc] ≠ [] ∧
    split_documents 1000 250 [sampleDoc] ≠ [] ∧
    embedAll brokenEmbedEnv sampleMgr.embeddings (split_documents 1000 250 [sampleDoc])
        = (.error (.embeddingError ("model crashed")), [.embed sampleChunk]) ∧
    ((sampleMgr.create_embeddings brokenEmbedEnv priorStore samplePath).result
        = .error (.connectionError ("Failed to connect to Qdrant Cloud: ")
            (.embeddingError ("model crashed"))) ∧
     (sampleMgr.create_embeddings brokenEmbedEnv priorStore samplePath).store = priorStore ∧
     (sampleMgr.create_embeddings brokenEmbedEnv priorStore samplePath).trace
        = [.load samplePath, .split] ++ [.embed sampleChunk]) :=
  ⟨rfl, rfl, by decide, by decide, rfl,
    C7_embedding_failure_wrapped brokenEmbedEnv sampleMgr priorStore samplePath [sampleDoc]
      [.embed sampleChunk] (.embeddingError ("model crashed"))
      rfl rfl (by decide) (by decide) rfl⟩

/-- Counterexample to claim C8 as stated: constructing an
`EmbeddingsManager` with all three of `STORE_URL`, `STORE_API_KEY` and
`COLLECTION_NAME` absent raises no `ConfigurationError` — `__init__` only
assigns fields and cannot fail. -/
theorem C8_counterexample :
    raisesConfigurationError
      (EmbeddingsManager.init default_model_name default_device default_encode_kwargs
        none none none) = false := rfl

/-- Claim C8 as amended: whatever configuration values are supplied —
absent (`None`) ones included — construction raises nothing: it succeeds
and silently stores the values as given, to be passed through to the
store call later. -/
theorem C8_absent_config_passes_through (u k c : Option String) :
    raisesConfigurationError
        (EmbeddingsManager.init default_model_name default_device default_encode_kwargs
          u k c) = false ∧
    EmbeddingsManager.init default_model_name default_device default_encode_kwargs u k c
      = .ok
        { model_name := default_model_name
          device := default_device
          encode_kwargs := default_encode_kwargs
          qdrant_url := u
          qdrant_api_key := k
          collection_name := c
          embeddings :=
            { model_name := default_model_name
              device := default_device
              encode_kwargs := default_encode_kwargs } } :=
  ⟨rfl, rfl⟩

/-- Claim C9: `create_embeddings` never mutates the object it is called
on — on every input and in every environment, succeeding or failing, the
object after the call is the object before it, so all configuration
fields (model_name, device, encode_kwargs, qdrant_url, qdrant_api_key,
collection_name, embeddings) are unchanged. -/
theorem C9_config_read_only (env : IngestEnv) (mgr : EmbeddingsManager)
    (store : StoreState) (path : String) :
    (mgr.create_embeddings env store path).self = mgr := by
  unfold EmbeddingsManager.create_embeddings
  repeat' split
  all_goals rfl

/-- Claim C10: whenever `create_embeddings` returns successfully, the
returned value is the fixed constant string, independent of the source
path, the chunks, the store and the collection name. -/
theorem C10_fixed_success_message (env : IngestEnv) (mgr : EmbeddingsManager)
    (store : StoreState) (path : String) (s : String)
    (h : (mgr.create_embeddings env store path).result = .ok s) :
    s = "✅ Vector DB Successfully Created and Stored in Qdrant Cloud!" := by
  unfold EmbeddingsManager.create_embeddings at h
  repeat' split at h
  all_goals simp_all [successMessage]

/-- Witness for C10: the successful run returns the fixed string. -/
theorem C10_witness :
    (sampleMgr.create_embeddings okEnv priorStore samplePath).result = .ok successMessage ∧
    successMessage = "✅ Vector DB Successfully Created and Stored in Qdrant Cloud!" :=
  ⟨rfl, C10_fixed_success_message okEnv sampleMgr priorStore samplePath successMessage rfl⟩

end Vectors
